import Mathlib

/-!
# Verification of the django-usergroups membership/invitation/application logic

Shallow embedding of `src/usergroups/options.py` (class
`BaseUserGroupConfiguration`, namespace `options` below) and of the parallel
standalone implementation `src/usergroups/views.py` (namespace `views` below).

Django collaborators are modelled as follows:
* a many-to-many relation (`group.members`, `group.admins`) is a `List UserId`
  with set-like `add` (no-op when present) and `remove` (removes the row);
* an ORM table (`EmailInvitation`, `UserGroupApplication`) is a list of rows;
  `objects.get` raising `DoesNotExist` / `MultipleObjectsReturned` is modelled
  by matching on the list of rows matching the filter;
* an HTTP request carries its method, the authenticated user and the
  `is_ajax()` flag; a view returns a `Response` (redirect / rendered template /
  bad request / JSON) or, when the Python code would raise an uncaught
  exception (`NameError` for an undefined name, `AttributeError`,
  `MultipleObjectsReturned`), an `Except.error`.  Database mutations performed
  before the exception persist (there is no transaction), so every view
  returns the final state alongside the `Except` response.
-/

abbrev UserId := Nat

/-- A group row: `creator` foreign key plus the `members` and `admins`
many-to-many relations (from `BaseUserGroup` as used by both files). -/
structure UserGroup where
  pk : Nat
  creator : UserId
  members : List UserId
  admins : List UserId
deriving Repr, DecidableEq

/-- Django m2m `add`: inserts the relation unless it is already present. -/
def m2mAdd (xs : List UserId) (x : UserId) : List UserId :=
  if x ∈ xs then xs else xs ++ [x]

/-- Django m2m `remove`: deletes the relation row(s) for `x`. -/
def m2mRemove (xs : List UserId) (x : UserId) : List UserId :=
  xs.filter (fun y => y ≠ x)

/-- Modelled from the spec: `BaseUserGroup.remove_admin` lives in
`usergroups/models.py`, which is not under `src/`.  The spec describes the
collaborator as "a custom delete/admin-removal method" and `revokeAdmin` as
"Removes user from admins only; user remains a member". -/
def UserGroup.remove_admin (g : UserGroup) (u : UserId) : UserGroup :=
  { g with admins := m2mRemove g.admins u }

/-- `EmailInvitation` row (models.py is not in `src/`; the fields used by
`options.validate_email_invitation` are the primary key and `secret_key`;
the issuing group is kept to show the lookup ignores it). -/
structure EmailInvitation where
  pk : Nat
  secret_key : String
  group : Nat
deriving Repr, DecidableEq

/-- `UserGroupApplication` row: applicant, target group and the `created`
timestamp refreshed on re-application. -/
structure Application where
  pk : Nat
  user : UserId
  group : Nat
  created : Nat
deriving Repr, DecidableEq

inductive Method where
  | GET
  | POST
deriving Repr, DecidableEq

/-- The request data the embedded views read: HTTP method, authenticated
user (`request.user`, all embedded views are behind `login_required`) and
the `request.is_ajax()` flag. -/
structure Request where
  method : Method
  user : UserId
  ajax : Bool
deriving Repr, DecidableEq

/-- Responses produced by the embedded views.  `redirect view slug args`
stands for `HttpResponseRedirect(reverse(view, args=(slug, *args)))`;
`redirectToGroup pk` for `HttpResponseRedirect(group.get_absolute_url())`
in views.py; `confirmAction a` for the `confirmation` helper rendering
`confirm_action.html` with `action = a`; `applicationView b` for rendering
`application.html` with `already_member = b`. -/
inductive Response where
  | redirect (view : String) (slug : String) (args : List Nat)
  | redirectToGroup (pk : Nat)
  | renderTemplate (template : String)
  | confirmAction (action : Option String)
  | applicationView (already_member : Bool)
  | badRequest
  | notFound
  | jsonResp (message : String)
deriving Repr, DecidableEq

/-- An uncaught Python exception escaping a view. -/
inductive PyError where
  | nameError (name : String)
  | attributeError (descr : String)
  | multipleObjects (model : String)
deriving Repr, DecidableEq

namespace options

/-- `BaseUserGroupConfiguration.has_permission`:
`user == group.creator or user in group.admins.all()`. -/
def has_permission (user : UserId) (group : UserGroup) : Bool :=
  user == group.creator || group.admins.contains user

/-- `BaseUserGroupConfiguration.leave_group` (options.py:294-326).
Non-POST requests get the confirmation view; a sole admin leaving is
redirected to `usergroups_delete_group`; otherwise the user is removed from
admins and members, after which the AJAX branch serializes the undefined
name `json_response` and raises `NameError`. -/
def leave_group (slug : String) (request : Request) (group : UserGroup) :
    Except PyError Response × UserGroup :=
  if request.method ≠ Method.POST then
    (Except.ok (Response.confirmAction (some "leave_group")), group)
  else if group.admins.length == 1 && group.admins.contains request.user then
    (Except.ok (Response.redirect "usergroups_delete_group" slug [group.pk]),
     group)
  else
    let group := group.remove_admin request.user
    let group := { group with members := m2mRemove group.members request.user }
    if request.ajax then
      (Except.error (PyError.nameError "json_response"), group)
    else
      (Except.ok (Response.redirect "usergroups_group_detail" slug [group.pk]),
       group)

/-- `BaseUserGroupConfiguration.delete_group` (options.py:178-196).
Permission gate, then a non-POST request gets the confirmation view;
a POST deletes the group (`none`) and redirects to the done-view. -/
def delete_group (slug : String) (request : Request) (group : UserGroup) :
    Except PyError Response × Option UserGroup :=
  if ¬ has_permission request.user group then
    (Except.ok Response.badRequest, some group)
  else if request.method ≠ Method.POST then
    (Except.ok (Response.confirmAction (some "delete")), some group)
  else
    (Except.ok (Response.redirect "usergroups_delete_group_done" slug []), none)

/-- `BaseUserGroupConfiguration.remove_member` (options.py:200-235).
Permission gate; a self-target is redirected to `usergroups_leave_group`
before any method check or mutation; a non-POST gets the confirmation view;
a POST removes the member from admins and members.  The AJAX branch then
evaluates the undefined name `user` (the code wrote `user.id` for
`member.id`) and raises `NameError`. -/
def remove_member (slug : String) (request : Request) (group : UserGroup)
    (member : UserId) : Except PyError Response × UserGroup :=
  if ¬ has_permission request.user group then
    (Except.ok Response.badRequest, group)
  else if member == request.user then
    (Except.ok (Response.redirect "usergroups_leave_group" slug [group.pk]),
     group)
  else if request.method ≠ Method.POST then
    (Except.ok (Response.confirmAction (some "delete")), group)
  else
    let group := group.remove_admin member
    let group := { group with members := m2mRemove group.members member }
    if request.ajax then
      (Except.error (PyError.nameError "user"), group)
    else
      (Except.ok (Response.redirect "usergroups_group_detail" slug [group.pk]),
       group)

/-- `BaseUserGroupConfiguration.add_admin` (options.py:238-259).
Permission gate; non-POST gets the confirmation view; a POST adds the member
to admins and, when not already a member, to members as well. -/
def add_admin (slug : String) (request : Request) (group : UserGroup)
    (member : UserId) : Except PyError Response × UserGroup :=
  if ¬ has_permission request.user group then
    (Except.ok Response.badRequest, group)
  else if request.method ≠ Method.POST then
    (Except.ok (Response.confirmAction (some "add_admin")), group)
  else
    let group := { group with admins := m2mAdd group.admins member }
    let group :=
      if group.members.contains member then group
      else { group with members := m2mAdd group.members member }
    (Except.ok (Response.redirect "usergroups_group_detail" slug [group.pk]),
     group)

/-- `BaseUserGroupConfiguration.revoke_admin` (options.py:261-292).
Permission gate; non-POST gets the confirmation view; a POST removes the
member from admins only.  The AJAX branch then serializes the undefined
name `json_response` and raises `NameError`. -/
def revoke_admin (slug : String) (request : Request) (group : UserGroup)
    (member : UserId) : Except PyError Response × UserGroup :=
  if ¬ has_permission request.user group then
    (Except.ok Response.badRequest, group)
  else if request.method ≠ Method.POST then
    (Except.ok (Response.confirmAction (some "revoke_admin")), group)
  else
    let group := group.remove_admin member
    if request.ajax then
      (Except.error (PyError.nameError "json_response"), group)
    else
      (Except.ok (Response.redirect "usergroups_group_detail" slug [group.pk]),
       group)

/-- `BaseUserGroupConfiguration.edit_group` (options.py:136-161).
Permission gate, then the form is validated (`form_valid` stands for
`form.is_valid()`; the form excludes `members`, `admins`, `creator`,
`created`, so the relations tracked here are unchanged by `form.save()`).
On an invalid form the code runs `extra_context = extra_context or None`
followed by `extra_context.update(...)`, which raises `AttributeError`
whenever the caller-supplied `extra_context` is falsy
(`extra_context_truthy = false`). -/
def edit_group (slug : String) (request : Request) (group : UserGroup)
    (form_valid : Bool) (extra_context_truthy : Bool) :
    Except PyError Response × UserGroup :=
  if ¬ has_permission request.user group then
    (Except.ok Response.badRequest, group)
  else if form_valid then
    (Except.ok (Response.redirect "usergroups_group_detail" slug [group.pk]),
     group)
  else if extra_context_truthy then
    (Except.ok (Response.renderTemplate "usergroups/group_form.html"), group)
  else
    (Except.error (PyError.attributeError "NoneType.update"), group)

/-- `BaseUserGroupConfiguration.create_email_invitation` (options.py:330-349).
Permission gate, then the `EmailInvitationForm` is validated; on a valid form
`form.send_invitations(self.slug)` creates invitation rows (forms.py is not
under `src/`, so the form's effect on the invitation table is abstracted as
the `send_invitations` argument); on an invalid form the form template is
re-rendered with nothing changed. -/
def create_email_invitation (slug : String) (request : Request)
    (group : UserGroup) (invitations : List EmailInvitation)
    (form_valid : Bool)
    (send_invitations : List EmailInvitation → List EmailInvitation) :
    Except PyError Response × List EmailInvitation :=
  if ¬ has_permission request.user group then
    (Except.ok Response.badRequest, invitations)
  else if form_valid then
    (Except.ok (Response.redirect "usergroups_group_detail" slug [group.pk]),
     send_invitations invitations)
  else
    (Except.ok (Response.renderTemplate
        "usergroups/create_email_invitation.html"), invitations)

/-- `get_object_or_404(UserGroupApplication, pk=application_id)`. -/
def findApplication (apps : List Application) (pk : Nat) : Option Application :=
  apps.find? (fun a => a.pk == pk)

/-- `BaseUserGroupConfiguration.approve_application` (options.py:378-425).
404 when the application is absent; permission gate; non-POST gets the
confirmation view; a POST adds the applicant to members and deletes the
application.  The AJAX branch then serializes the undefined name
`json_response` and raises `NameError`. -/
def approve_application (slug : String) (request : Request)
    (group : UserGroup) (apps : List Application) (application_id : Nat) :
    Except PyError Response × UserGroup × List Application :=
  match findApplication apps application_id with
  | none => (Except.ok Response.notFound, group, apps)
  | some application =>
    if ¬ has_permission request.user group then
      (Except.ok Response.badRequest, group, apps)
    else if request.method ≠ Method.POST then
      (Except.ok (Response.confirmAction (some "approve_application")),
       group, apps)
    else
      let group :=
        { group with members := m2mAdd group.members application.user }
      let apps := apps.filter (fun a => a.pk ≠ application.pk)
      if request.ajax then
        (Except.error (PyError.nameError "json_response"), group, apps)
      else
        (Except.ok (Response.redirect "usergroups_group_detail" slug
            [group.pk]), group, apps)

/-- `BaseUserGroupConfiguration.ignore_application` (options.py:427-461).
404 when the application is absent; permission gate; non-POST gets the
confirmation view; a POST deletes the application with no membership
change.  The AJAX branch then serializes the undefined name
`json_response` and raises `NameError`. -/
def ignore_application (slug : String) (request : Request)
    (group : UserGroup) (apps : List Application) (application_id : Nat) :
    Except PyError Response × UserGroup × List Application :=
  match findApplication apps application_id with
  | none => (Except.ok Response.notFound, group, apps)
  | some application =>
    if ¬ has_permission request.user group then
      (Except.ok Response.badRequest, group, apps)
    else if request.method ≠ Method.POST then
      (Except.ok (Response.confirmAction (some "ignore_application")),
       group, apps)
    else
      let apps := apps.filter (fun a => a.pk ≠ application.pk)
      if request.ajax then
        (Except.error (PyError.nameError "json_response"), group, apps)
      else
        (Except.ok (Response.redirect "usergroups_group_detail" slug
            [group.pk]), group, apps)

/-- `BaseUserGroupConfiguration.validate_email_invitation`
(options.py:351-370).  The lookup
`EmailInvitation.objects.get(secret_key=key)` ignores the group (the code
carries a `TODO: Search on group as well`).  `DoesNotExist` renders the
invalid-invitation template and returns; `MultipleObjectsReturned` deletes
every row matching the key and then *falls through*, so both the unique and
the multiple case reach `group.members.add(request.user)` and the redirect
to `usergroups_group_joined`. -/
def validate_email_invitation (slug : String) (request : Request)
    (group : UserGroup) (invitations : List EmailInvitation) (key : String) :
    Except PyError Response × UserGroup × List EmailInvitation :=
  match invitations.filter (fun i => i.secret_key == key) with
  | [] =>
    (Except.ok (Response.renderTemplate "usergroups/invalid_invitation.html"),
     group, invitations)
  | [inv] =>
    let invitations := invitations.filter (fun i => i.pk ≠ inv.pk)
    (Except.ok (Response.redirect "usergroups_group_joined" slug [group.pk]),
     { group with members := m2mAdd group.members request.user }, invitations)
  | _ =>
    let invitations := invitations.filter (fun i => i.secret_key ≠ key)
    (Except.ok (Response.redirect "usergroups_group_joined" slug [group.pk]),
     { group with members := m2mAdd group.members request.user }, invitations)

/-- `BaseUserGroupConfiguration.apply_to_join_group` (options.py:463-508).
Non-POST gets the confirmation view (passing `extra_context`, i.e. `None`,
as the `action` argument).  On POST: an existing member causes no table
change; otherwise the pending application for (user, group) is looked up —
when absent one is created (`now` is the creation timestamp, `fresh_pk` the
new row's key); when present the refresh `application.created =
datetime.datetime.now()` raises `NameError` because options.py never
imports `datetime`; `MultipleObjectsReturned` from the `get` is uncaught.
The AJAX response branch serializes the undefined name `json_response` and
raises `NameError`. -/
def apply_to_join_group (slug : String) (request : Request)
    (group : UserGroup) (apps : List Application) (now : Nat)
    (fresh_pk : Nat) : Except PyError Response × List Application :=
  if request.method ≠ Method.POST then
    (Except.ok (Response.confirmAction none), apps)
  else if group.members.contains request.user then
    if request.ajax then
      (Except.error (PyError.nameError "json_response"), apps)
    else
      (Except.ok (Response.applicationView true), apps)
  else
    match apps.filter (fun a => a.user == request.user
                                && a.group == group.pk) with
    | [] =>
      let apps := apps ++ [⟨fresh_pk, request.user, group.pk, now⟩]
      if request.ajax then
        (Except.error (PyError.nameError "json_response"), apps)
      else
        (Except.ok (Response.applicationView false), apps)
    | [_] => (Except.error (PyError.nameError "datetime"), apps)
    | _ =>
      (Except.error (PyError.multipleObjects "UserGroupApplication"), apps)

end options

namespace views

/-- `views.leave_group` (views.py:136-144): unconditionally removes the
requesting user from admins and members, then redirects to the group.
There is no sole-admin check and no method check in this implementation. -/
def leave_group (request : Request) (group : UserGroup) :
    Except PyError Response × UserGroup :=
  let group := group.remove_admin request.user
  let group := { group with members := m2mRemove group.members request.user }
  (Except.ok (Response.redirectToGroup group.pk), group)

/-- `views.delete_group` (views.py:90-97): behind `group_admin_required`,
the body deletes the group unconditionally — no method check and no
confirmation step — and renders the deleted-template. -/
def delete_group (request : Request) (group : UserGroup) :
    Except PyError Response × Option UserGroup :=
  (Except.ok (Response.renderTemplate "usergroups/group_deleted.html"), none)

/-- `views.add_admin` (views.py:101-114): behind `group_admin_required`,
adds the user to admins and, when not already a member, to members. -/
def add_admin (request : Request) (group : UserGroup) (user : UserId) :
    Except PyError Response × UserGroup :=
  let group := { group with admins := m2mAdd group.admins user }
  let group :=
    if group.members.contains user then group
    else { group with members := m2mAdd group.members user }
  (Except.ok (Response.redirectToGroup group.pk), group)

/-- `views.revoke_admin` (views.py:116-122): behind `group_admin_required`,
removes the user from admins via `group.remove_admin`. -/
def revoke_admin (request : Request) (group : UserGroup) (user : UserId) :
    Except PyError Response × UserGroup :=
  (Except.ok (Response.redirectToGroup group.pk), group.remove_admin user)

/-- `views.apply_to_join_group` (views.py:178-195): unlike the options.py
version, views.py imports `datetime`, so re-applying refreshes the
existing application's `created` timestamp. -/
def apply_to_join_group (request : Request) (group : UserGroup)
    (apps : List Application) (now : Nat) (fresh_pk : Nat) :
    Except PyError Response × List Application :=
  if group.members.contains request.user then
    (Except.ok (Response.applicationView true), apps)
  else
    match apps.filter (fun a => a.user == request.user
                                && a.group == group.pk) with
    | [] =>
      (Except.ok (Response.applicationView false),
       apps ++ [⟨fresh_pk, request.user, group.pk, now⟩])
    | [a] =>
      (Except.ok (Response.applicationView false),
       apps.map (fun b => if b.pk == a.pk then { b with created := now }
                 else b))
    | _ =>
      (Except.error (PyError.multipleObjects "UserGroupApplication"), apps)

end views

/-! ## Helper lemmas about the m2m relation model -/

theorem mem_m2mAdd_self (xs : List UserId) (x : UserId) : x ∈ m2mAdd xs x := by
  unfold m2mAdd
  split
  · assumption
  · simp

theorem mem_m2mAdd_of_mem (xs : List UserId) (x y : UserId) (h : y ∈ xs) :
    y ∈ m2mAdd xs x := by
  unfold m2mAdd
  split
  · exact h
  · exact List.mem_append_left _ h

theorem m2mAdd_of_mem (xs : List UserId) (x : UserId) (h : x ∈ xs) :
    m2mAdd xs x = xs := by
  unfold m2mAdd
  exact if_pos h

theorem m2mAdd_idem (xs : List UserId) (x : UserId) :
    m2mAdd (m2mAdd xs x) x = m2mAdd xs x :=
  m2mAdd_of_mem _ _ (mem_m2mAdd_self xs x)

theorem not_mem_m2mRemove (xs : List UserId) (x : UserId) :
    x ∉ m2mRemove xs x := by
  simp [m2mRemove]

/-- C1: for the configuration-object implementation the sole-admin safeguard
holds: if `admins(g) = [u]` and `u` POSTs `leave_group`, the state is
unchanged and the response redirects to `usergroups_delete_group`. -/
theorem C1_sole_admin_leave_redirects_to_delete
    (slug : String) (request : Request) (g : UserGroup) (u : UserId)
    (hm : request.method = Method.POST) (hu : request.user = u)
    (ha : g.admins = [u]) :
    options.leave_group slug request g =
      (Except.ok (Response.redirect "usergroups_delete_group" slug [g.pk]),
       g) := by
  simp [options.leave_group, hm, ha, hu]

/-- C1 witness: a concrete sole-admin POST leave is redirected to deletion
with no state change. -/
theorem C1_sole_admin_leave_redirects_to_delete_witness :
    options.leave_group "g" ⟨Method.POST, 7, false⟩ ⟨1, 7, [7, 8], [7]⟩ =
      (Except.ok (Response.redirect "usergroups_delete_group" "g" [1]),
       ⟨1, 7, [7, 8], [7]⟩) :=
  C1_sole_admin_leave_redirects_to_delete "g" ⟨Method.POST, 7, false⟩
    ⟨1, 7, [7, 8], [7]⟩ 7 rfl rfl rfl

/-- C1 counterexample: the standalone `views.leave_group`, also cited by the
claim, removes a sole admin unconditionally: user 7, sole admin and sole
member of group 1, leaves and the group is left admin-less, with the
response a plain redirect to the group, not toward deletion. -/
theorem C1_views_leave_group_drops_sole_admin :
    views.leave_group ⟨Method.POST, 7, false⟩ ⟨1, 7, [7], [7]⟩ =
      (Except.ok (Response.redirectToGroup 1), ⟨1, 7, [], []⟩) := by
  rfl

/-- C2 counterexample: the claim says a key matching more than one stored
invitation grants no membership; in the code the `MultipleObjectsReturned`
handler falls through to `group.members.add(request.user)`, so user 9,
redeeming key "k" matched by two invitations, *is* added to the members of
group 1 (and both invitations are deleted). -/
theorem C2_multiple_match_grants_membership :
    options.validate_email_invitation "g" ⟨Method.GET, 9, false⟩
        ⟨1, 5, [], []⟩ [⟨1, "k", 1⟩, ⟨2, "k", 2⟩] "k" =
      (Except.ok (Response.redirect "usergroups_group_joined" "g" [1]),
       ⟨1, 5, [9], []⟩, []) := by
  rfl

/-- C2 (amended): redeeming a valid unique key grants membership and removes
that invitation; an unknown key grants no membership and renders the
invalid-invitation view; a key matching more than one invitation removes
every matching invitation AND grants membership as well (redirecting to the
joined view). -/
theorem C2_redeem_email_invitation (slug : String) (request : Request)
    (g : UserGroup) (invitations : List EmailInvitation) (key : String) :
    (invitations.filter (fun i => i.secret_key == key) = [] ∧
      options.validate_email_invitation slug request g invitations key =
        (Except.ok (Response.renderTemplate
            "usergroups/invalid_invitation.html"), g, invitations)) ∨
    (∃ inv, invitations.filter (fun i => i.secret_key == key) = [inv] ∧
      options.validate_email_invitation slug request g invitations key =
        (Except.ok (Response.redirect "usergroups_group_joined" slug [g.pk]),
         { g with members := m2mAdd g.members request.user },
         invitations.filter (fun i => i.pk ≠ inv.pk))) ∨
    (2 ≤ (invitations.filter (fun i => i.secret_key == key)).length ∧
      options.validate_email_invitation slug request g invitations key =
        (Except.ok (Response.redirect "usergroups_group_joined" slug [g.pk]),
         { g with members := m2mAdd g.members request.user },
         invitations.filter (fun i => i.secret_key ≠ key))) := by
  rcases h : invitations.filter (fun i => i.secret_key == key) with
    _ | ⟨inv, _ | ⟨inv2, tl⟩⟩
  · exact Or.inl ⟨h, by simp [options.validate_email_invitation, h]⟩
  · exact Or.inr (Or.inl ⟨inv, h,
      by simp [options.validate_email_invitation, h]⟩)
  · refine Or.inr (Or.inr ⟨by simp [h], ?_⟩)
    simp [options.validate_email_invitation, h]

/-- C3: after a POST `add_admin` by a permitted actor, the target user is in
the group's admins and in its members, in both the configuration-object
implementation and the standalone views.py implementation. -/
theorem C3_add_admin_grants_admin_and_membership (slug : String)
    (request : Request) (g : UserGroup) (u : UserId)
    (hperm : options.has_permission request.user g = true)
    (hm : request.method = Method.POST) :
    u ∈ (options.add_admin slug request g u).2.admins ∧
    u ∈ (options.add_admin slug request g u).2.members ∧
    u ∈ (views.add_admin request g u).2.admins ∧
    u ∈ (views.add_admin request g u).2.members := by
  refine ⟨?_, ?_, ?_, ?_⟩ <;>
    simp only [options.add_admin, views.add_admin, hperm, hm] <;>
    simp <;>
    split <;>
    simp_all [mem_m2mAdd_self]

/-- C3 witness: creator 1 of group 1 POSTs `add_admin` for user 2; user 2
ends up in admins and members in both implementations. -/
theorem C3_add_admin_grants_admin_and_membership_witness :
    options.has_permission 1 ⟨1, 1, [1], [1]⟩ = true ∧
    (2 ∈ (options.add_admin "g" ⟨Method.POST, 1, false⟩
        ⟨1, 1, [1], [1]⟩ 2).2.admins ∧
     2 ∈ (options.add_admin "g" ⟨Method.POST, 1, false⟩
        ⟨1, 1, [1], [1]⟩ 2).2.members ∧
     2 ∈ (views.add_admin ⟨Method.POST, 1, false⟩ ⟨1, 1, [1], [1]⟩ 2).2.admins ∧
     2 ∈ (views.add_admin ⟨Method.POST, 1, false⟩
        ⟨1, 1, [1], [1]⟩ 2).2.members) :=
  ⟨by decide,
   C3_add_admin_grants_admin_and_membership "g" ⟨Method.POST, 1, false⟩
     ⟨1, 1, [1], [1]⟩ 2 (by decide) rfl⟩

/-- C4: every admin-only operation of the configuration-object implementation
(edit, delete, remove member, add admin, revoke admin, invite by e-mail,
approve application, ignore application), invoked by an actor who is neither
the group's creator nor one of its admins, returns the bad-request response
(not a redirect) and leaves the group, its members and admins, the
applications and the invitations unmodified.  (For approve/ignore the cited
application must exist, since an absent one yields a 404 before the
permission gate.) -/
theorem C4_permission_gate (slug : String) (request : Request)
    (g : UserGroup) (member : UserId) (invitations : List EmailInvitation)
    (apps : List Application) (application_id : Nat)
    (form_valid extra_context_truthy : Bool)
    (send_invitations : List EmailInvitation → List EmailInvitation)
    (application : Application)
    (hperm : options.has_permission request.user g = false)
    (happ : options.findApplication apps application_id = some application) :
    options.edit_group slug request g form_valid extra_context_truthy =
      (Except.ok Response.badRequest, g) ∧
    options.delete_group slug request g =
      (Except.ok Response.badRequest, some g) ∧
    options.remove_member slug request g member =
      (Except.ok Response.badRequest, g) ∧
    options.add_admin slug request g member =
      (Except.ok Response.badRequest, g) ∧
    options.revoke_admin slug request g member =
      (Except.ok Response.badRequest, g) ∧
    options.create_email_invitation slug request g invitations form_valid
        send_invitations =
      (Except.ok Response.badRequest, invitations) ∧
    options.approve_application slug request g apps application_id =
      (Except.ok Response.badRequest, g, apps) ∧
    options.ignore_application slug request g apps application_id =
      (Except.ok Response.badRequest, g, apps) := by
  refine ⟨?_, ?_, ?_, ?_, ?_, ?_, ?_, ?_⟩ <;>
    simp [options.edit_group, options.delete_group, options.remove_member,
          options.add_admin, options.revoke_admin,
          options.create_email_invitation, options.approve_application,
          options.ignore_application, hperm, happ]

/-- C4 witness: user 9, a plain member of group 1 (creator 5, sole admin 3),
invokes each admin-only operation; each returns bad-request and changes
nothing. -/
theorem C4_permission_gate_witness :
    options.has_permission 9 ⟨1, 5, [9], [3]⟩ = false ∧
    options.findApplication [⟨1, 9, 1, 0⟩] 1 = some ⟨1, 9, 1, 0⟩ ∧
    (options.edit_group "g" ⟨Method.POST, 9, false⟩ ⟨1, 5, [9], [3]⟩
        true true = (Except.ok Response.badRequest, ⟨1, 5, [9], [3]⟩) ∧
     options.delete_group "g" ⟨Method.POST, 9, false⟩ ⟨1, 5, [9], [3]⟩ =
       (Except.ok Response.badRequest, some ⟨1, 5, [9], [3]⟩) ∧
     options.remove_member "g" ⟨Method.POST, 9, false⟩ ⟨1, 5, [9], [3]⟩ 3 =
       (Except.ok Response.badRequest, ⟨1, 5, [9], [3]⟩) ∧
     options.add_admin "g" ⟨Method.POST, 9, false⟩ ⟨1, 5, [9], [3]⟩ 9 =
       (Except.ok Response.badRequest, ⟨1, 5, [9], [3]⟩) ∧
     options.revoke_admin "g" ⟨Method.POST, 9, false⟩ ⟨1, 5, [9], [3]⟩ 3 =
       (Except.ok Response.badRequest, ⟨1, 5, [9], [3]⟩) ∧
     options.create_email_invitation "g" ⟨Method.POST, 9, false⟩
         ⟨1, 5, [9], [3]⟩ [] true id =
       (Except.ok Response.badRequest, []) ∧
     options.approve_application "g" ⟨Method.POST, 9, false⟩
         ⟨1, 5, [9], [3]⟩ [⟨1, 9, 1, 0⟩] 1 =
       (Except.ok Response.badRequest, ⟨1, 5, [9], [3]⟩, [⟨1, 9, 1, 0⟩]) ∧
     options.ignore_application "g" ⟨Method.POST, 9, false⟩
         ⟨1, 5, [9], [3]⟩ [⟨1, 9, 1, 0⟩] 1 =
       (Except.ok Response.badRequest, ⟨1, 5, [9], [3]⟩, [⟨1, 9, 1, 0⟩])) :=
  ⟨by decide, by rfl,
   C4_permission_gate "g" ⟨Method.POST, 9, false⟩ ⟨1, 5, [9], [3]⟩ 3 []
     [⟨1, 9, 1, 0⟩] 1 true true id ⟨1, 9, 1, 0⟩ (by decide) (by rfl)⟩

/-- C5 counterexample: the standalone `views.delete_group`, also cited by the
claim, deletes the group on a GET request without any confirmation step:
the group does not survive the GET, contradicting "a GET request returns a
confirmation view and leaves the group in existence". -/
theorem C5_views_delete_group_deletes_on_GET :
    views.delete_group ⟨Method.GET, 5, false⟩ ⟨1, 5, [5], [5]⟩ =
      (Except.ok (Response.renderTemplate "usergroups/group_deleted.html"),
       none) := by
  rfl

/-- C5 (amended): the configuration-object implementation requires the
explicit confirmation step: for a permitted actor, a non-POST request
returns the confirmation view and the group survives; only a POST deletes
the group (redirecting to the done-view).  The standalone
`views.delete_group` deletes on any method without confirmation. -/
theorem C5_delete_group_requires_confirmation (slug : String)
    (request : Request) (g : UserGroup)
    (hperm : options.has_permission request.user g = true) :
    options.delete_group slug request g =
      if request.method = Method.POST then
        (Except.ok (Response.redirect "usergroups_delete_group_done" slug []),
         none)
      else
        (Except.ok (Response.confirmAction (some "delete")), some g) := by
  cases hm : request.method <;> simp [options.delete_group, hperm, hm]

/-- C5 witness: the creator GETs `delete_group`; the confirmation view is
returned and the group still exists. -/
theorem C5_delete_group_requires_confirmation_witness :
    options.has_permission 5 ⟨1, 5, [5], [5]⟩ = true ∧
    options.delete_group "g" ⟨Method.GET, 5, false⟩ ⟨1, 5, [5], [5]⟩ =
      (Except.ok (Response.confirmAction (some "delete")),
       some ⟨1, 5, [5], [5]⟩) :=
  ⟨by decide,
   C5_delete_group_requires_confirmation "g" ⟨Method.GET, 5, false⟩
     ⟨1, 5, [5], [5]⟩ (by decide)⟩

/-- C6: the refresh path of the configuration-object `apply_to_join_group`
crashes.  User 9 (not a member of group 1) POSTs an application: one pending
application row is created.  A second POST before approval finds the
existing row, but `application.created = datetime.datetime.now()` raises
`NameError` because options.py never imports `datetime` — no timestamp is
refreshed.  The parallel views.py implementation, which does import
`datetime`, refreshes the timestamp on the same input as the claim states.
-/
theorem C6_apply_refresh_raises_NameError :
    options.apply_to_join_group "g" ⟨Method.POST, 9, false⟩ ⟨1, 5, [5], [5]⟩
        [] 100 1 =
      (Except.ok (Response.applicationView false), [⟨1, 9, 1, 100⟩]) ∧
    options.apply_to_join_group "g" ⟨Method.POST, 9, false⟩ ⟨1, 5, [5], [5]⟩
        [⟨1, 9, 1, 100⟩] 200 2 =
      (Except.error (PyError.nameError "datetime"), [⟨1, 9, 1, 100⟩]) ∧
    views.apply_to_join_group ⟨Method.POST, 9, false⟩ ⟨1, 5, [5], [5]⟩
        [⟨1, 9, 1, 100⟩] 200 2 =
      (Except.ok (Response.applicationView false), [⟨1, 9, 1, 200⟩]) ∧
    options.apply_to_join_group "g" ⟨Method.POST, 5, false⟩ ⟨1, 5, [5], [5]⟩
        [] 100 1 =
      (Except.ok (Response.applicationView true), []) := by
  refine ⟨rfl, rfl, rfl, rfl⟩

/-- C7: after a POST `revoke_admin` by a permitted actor, the target user is
no longer in the group's admins and the members relation is unchanged, in
both the configuration-object implementation and the standalone views.py
implementation. -/
theorem C7_revoke_admin_removes_admin_only (slug : String)
    (request : Request) (g : UserGroup) (u : UserId)
    (hperm : options.has_permission request.user g = true)
    (hm : request.method = Method.POST) :
    u ∉ (options.revoke_admin slug request g u).2.admins ∧
    (options.revoke_admin slug request g u).2.members = g.members ∧
    u ∉ (views.revoke_admin request g u).2.admins ∧
    (views.revoke_admin request g u).2.members = g.members := by
  rcases request with ⟨m, actor, aj⟩
  refine ⟨?_, ?_, ?_, ?_⟩ <;>
    cases aj <;>
    simp_all [options.revoke_admin, views.revoke_admin,
              UserGroup.remove_admin, not_mem_m2mRemove]

/-- C7 witness: creator 1 POSTs `revoke_admin` for admin 2 of group 1; user 2
is no longer an admin and the members are untouched in both
implementations. -/
theorem C7_revoke_admin_removes_admin_only_witness :
    options.has_permission 1 ⟨1, 1, [1, 2], [1, 2]⟩ = true ∧
    (2 ∉ (options.revoke_admin "g" ⟨Method.POST, 1, false⟩
        ⟨1, 1, [1, 2], [1, 2]⟩ 2).2.admins ∧
     (options.revoke_admin "g" ⟨Method.POST, 1, false⟩
        ⟨1, 1, [1, 2], [1, 2]⟩ 2).2.members = [1, 2] ∧
     2 ∉ (views.revoke_admin ⟨Method.POST, 1, false⟩
        ⟨1, 1, [1, 2], [1, 2]⟩ 2).2.admins ∧
     (views.revoke_admin ⟨Method.POST, 1, false⟩
        ⟨1, 1, [1, 2], [1, 2]⟩ 2).2.members = [1, 2]) :=
  ⟨by decide,
   C7_revoke_admin_removes_admin_only "g" ⟨Method.POST, 1, false⟩
     ⟨1, 1, [1, 2], [1, 2]⟩ 2 (by decide) rfl⟩

/-- The membership list produced by the `add_admin` bodies keeps the target
user: `group.admins.add(member)` then a conditional `group.members.add`. -/
theorem condAdd_contains (xs : List UserId) (u : UserId) :
    u ∈ (if xs.contains u then xs else m2mAdd xs u) := by
  by_cases h : u ∈ xs
  · simp [h]
  · simp [h, mem_m2mAdd_self]

/-- Same fact with the condition in propositional form. -/
theorem mem_condAdd (xs : List UserId) (u : UserId) :
    u ∈ (if u ∈ xs then xs else m2mAdd xs u) := by
  by_cases h : u ∈ xs
  · simpa [h]
  · simpa [h] using mem_m2mAdd_self xs u

/-- State reached by a permitted POST `options.add_admin`. -/
theorem options_add_admin_POST_state (slug : String) (request : Request)
    (g : UserGroup) (u : UserId)
    (hperm : options.has_permission request.user g = true)
    (hm : request.method = Method.POST) :
    (options.add_admin slug request g u).2 =
      { pk := g.pk, creator := g.creator,
        members := if g.members.contains u then g.members
                   else m2mAdd g.members u,
        admins := m2mAdd g.admins u } := by
  simp only [options.add_admin, hperm, hm]
  split <;> simp_all <;> split <;> simp_all

/-- State reached by the `views.add_admin` body. -/
theorem views_add_admin_state (request : Request) (g : UserGroup)
    (u : UserId) :
    (views.add_admin request g u).2 =
      { pk := g.pk, creator := g.creator,
        members := if g.members.contains u then g.members
                   else m2mAdd g.members u,
        admins := m2mAdd g.admins u } := by
  simp only [views.add_admin]
  split <;> simp_all <;> split <;> simp_all

/-- C8: a POST `add_admin` by a permitted actor is idempotent — performing it
twice with the same arguments yields the same members and admins as
performing it once — in both the configuration-object implementation and
the standalone views.py implementation. -/
theorem C8_add_admin_idempotent (slug : String) (request : Request)
    (g : UserGroup) (u : UserId)
    (hperm : options.has_permission request.user g = true)
    (hm : request.method = Method.POST) :
    (options.add_admin slug request
        (options.add_admin slug request g u).2 u).2 =
      (options.add_admin slug request g u).2 ∧
    (views.add_admin request (views.add_admin request g u).2 u).2 =
      (views.add_admin request g u).2 := by
  have h1 := options_add_admin_POST_state slug request g u hperm hm
  have hperm' :
      options.has_permission request.user
        (options.add_admin slug request g u).2 = true := by
    rw [h1]
    unfold options.has_permission at hperm ⊢
    simp only [Bool.or_eq_true] at hperm ⊢
    rcases hperm with h | h
    · exact Or.inl h
    · refine Or.inr ?_
      simp at h ⊢
      exact mem_m2mAdd_of_mem _ _ _ h
  have h2 := options_add_admin_POST_state slug request
    (options.add_admin slug request g u).2 u hperm' hm
  have hv1 := views_add_admin_state request g u
  have hv2 := views_add_admin_state request (views.add_admin request g u).2 u
  constructor
  · rw [h2, h1]
    simp [m2mAdd_idem]
    intro hnot
    exact absurd (mem_condAdd g.members u) hnot
  · rw [hv2, hv1]
    simp [m2mAdd_idem]
    intro hnot
    exact absurd (mem_condAdd g.members u) hnot

/-- C8 witness: creator 1 of group 1 POSTs `add_admin` for user 3 twice; the
second call changes nothing in either implementation. -/
theorem C8_add_admin_idempotent_witness :
    options.has_permission 1 ⟨1, 1, [1], [1]⟩ = true ∧
    ((options.add_admin "g" ⟨Method.POST, 1, false⟩
        (options.add_admin "g" ⟨Method.POST, 1, false⟩
          ⟨1, 1, [1], [1]⟩ 3).2 3).2 =
      (options.add_admin "g" ⟨Method.POST, 1, false⟩ ⟨1, 1, [1], [1]⟩ 3).2 ∧
     (views.add_admin ⟨Method.POST, 1, false⟩
        (views.add_admin ⟨Method.POST, 1, false⟩ ⟨1, 1, [1], [1]⟩ 3).2 3).2 =
      (views.add_admin ⟨Method.POST, 1, false⟩ ⟨1, 1, [1], [1]⟩ 3).2) :=
  ⟨by decide,
   C8_add_admin_idempotent "g" ⟨Method.POST, 1, false⟩ ⟨1, 1, [1], [1]⟩ 3
     (by decide) rfl⟩

/-- C9: requests reachable in normal use do crash.  Three concrete crashes:
(1) creator 1 POSTs an AJAX `revoke_admin` for admin 2 — the admin row is
removed and then the AJAX branch raises `NameError` serializing the
undefined name `json_response`; (2) creator 1 POSTs an AJAX `remove_member`
for member 2 — the member is removed and then `user.id` raises `NameError`
(`user` is undefined; the code meant `member`); (3) creator 1 submits an
invalid `edit_group` form with no `extra_context` — `extra_context =
extra_context or None` followed by `extra_context.update(...)` raises
`AttributeError`.  Each contradicts "every failure is request-scoped ...
never a crash". -/
theorem C9_normal_use_requests_crash :
    options.revoke_admin "g" ⟨Method.POST, 1, true⟩ ⟨1, 1, [1, 2], [1, 2]⟩ 2 =
      (Except.error (PyError.nameError "json_response"),
       ⟨1, 1, [1, 2], [1]⟩) ∧
    options.remove_member "g" ⟨Method.POST, 1, true⟩ ⟨1, 1, [1, 2], [1]⟩ 2 =
      (Except.error (PyError.nameError "user"), ⟨1, 1, [1], [1]⟩) ∧
    options.edit_group "g" ⟨Method.POST, 1, false⟩ ⟨1, 1, [1], [1]⟩
        false false =
      (Except.error (PyError.attributeError "NoneType.update"),
       ⟨1, 1, [1], [1]⟩) := by
  refine ⟨rfl, rfl, rfl⟩

/-- C10: a permitted actor invoking the configuration-object `remove_member`
on themself removes nobody — the group is returned unchanged — and the
response is a redirect to the leave-group view, on any request method. -/
theorem C10_remove_member_self_redirects_to_leave (slug : String)
    (request : Request) (g : UserGroup)
    (hperm : options.has_permission request.user g = true) :
    options.remove_member slug request g request.user =
      (Except.ok (Response.redirect "usergroups_leave_group" slug [g.pk]),
       g) := by
  simp [options.remove_member, hperm]

/-- C10 witness: admin 2 of group 1 POSTs `remove_member` targeting
themself; the state is unchanged and the response redirects to
`usergroups_leave_group`. -/
theorem C10_remove_member_self_redirects_to_leave_witness :
    options.has_permission 2 ⟨1, 1, [1, 2], [1, 2]⟩ = true ∧
    options.remove_member "g" ⟨Method.POST, 2, false⟩
        ⟨1, 1, [1, 2], [1, 2]⟩ 2 =
      (Except.ok (Response.redirect "usergroups_leave_group" "g" [1]),
       ⟨1, 1, [1, 2], [1, 2]⟩) :=
  ⟨by decide,
   C10_remove_member_self_redirects_to_leave "g" ⟨Method.POST, 2, false⟩
     ⟨1, 1, [1, 2], [1, 2]⟩ (by decide)⟩
